import Mathlib

/-!
# Verification of the Pokagotchi server core (src/server.py)

Shallow embedding of the pure core of `server.py`: the scoring function
`calculate_pet_stats`, the state store (`load_pet_state` / `save_pet_state`
over an explicit store model), the mood classification performed inside
`update_pet_from_email_data`, and the three tool entry points
`check_pet_status`, `update_pet_from_email_data`, `get_pet_advice`.

Python `int` is modelled by `Int`; the Python `float` field
`avg_response_time_hours` is modelled by `ℚ` (the only operations performed
on it are comparisons against small integer literals, where float and
rational semantics agree).  The on-disk JSON file is modelled by
`Store := Option FileContent`: `none` is an absent file (Python
`FileNotFoundError`), `FileContent.malformed` is a present but unparsable
file (Python `json.JSONDecodeError`, uncaught), `FileContent.valid s` is a
file holding the record `s`.  `datetime.datetime.now().isoformat()` is
modelled by threading an explicit `now : String` argument into each call.
-/

set_option autoImplicit false

deriving instance DecidableEq for Except

namespace Pokagotchi

/-- The `email_stats` dictionary consumed by `calculate_pet_stats`; the field
set and defaults mirror the keyword parameters of
`update_pet_from_email_data`. -/
structure EmailMetrics where
  unread_count : Int
  total_inbox_count : Int
  emails_awaiting_reply : Int
  avg_response_time_hours : ℚ
  dormant_threads_7days : Int
  action_emails_percent : Int
  volume_today : Int
  is_busy_period : Bool
deriving DecidableEq, Repr

/-- The defaults of `update_pet_from_email_data`'s keyword parameters. -/
def default_email_metrics : EmailMetrics :=
  { unread_count := 0
    total_inbox_count := 0
    emails_awaiting_reply := 0
    avg_response_time_hours := 24
    dormant_threads_7days := 0
    action_emails_percent := 50
    volume_today := 10
    is_busy_period := false }

/-- `max(0, min(100, x))`, the final clamp applied to each score. -/
def clamp (x : Int) : Int := max 0 (min 100 x)

/-- Embedding of `calculate_pet_stats`: base 50 for each score, additive
adjustments from the metrics, then clamp each score to [0, 100].
Returns `(health, happiness, energy)`. -/
def calculate_pet_stats (m : EmailMetrics) : Int × Int × Int :=
  let health : Int := 50
  let happiness : Int := 50
  let energy : Int := 50
  -- Health calculation (responsiveness)
  let health :=
    if m.emails_awaiting_reply = 0 then health + 15
    else if m.emails_awaiting_reply < 5 then health + 10
    else if m.emails_awaiting_reply > 10 then health - 10
    else health
  let health := if m.avg_response_time_hours < 4 then health + 5 else health
  let health := health - m.dormant_threads_7days * 15
  -- Happiness calculation (organization)
  let happiness :=
    if m.unread_count = 0 then happiness + 20
    else if m.unread_count < 10 then happiness + 10
    else if m.unread_count > 50 then happiness - 5
    else happiness
  let happiness :=
    if m.total_inbox_count < 50 then happiness + 5
    else if m.total_inbox_count > 200 then happiness - 10
    else happiness
  -- Energy calculation (workload balance)
  let energy :=
    if m.action_emails_percent ≤ 30 then energy + 10
    else if m.action_emails_percent > 70 then energy - 10
    else energy
  let energy :=
    if m.is_busy_period ∧ m.volume_today > 30 then energy - 5
    else if ¬ m.is_busy_period ∧ m.volume_today < 10 then energy + 15
    else energy
  -- Clamp values between 0-100
  (clamp health, clamp happiness, clamp energy)

/-- The persisted pet record (the JSON document's fields). -/
structure PetState where
  name : String
  health : Int
  happiness : Int
  energy : Int
  last_updated : String
  status : String
  mood_emoji : String
deriving DecidableEq, Repr

/-- The default record built by `load_pet_state` when the file is missing;
`now` stands for `datetime.datetime.now().isoformat()`. -/
def default_pet_state (now : String) : PetState :=
  { name := "Pokagotchi"
    health := 75
    happiness := 75
    energy := 75
    last_updated := now
    status := "okay"
    mood_emoji := "😐" }

/-- Content of the state file when it exists: either a record that parses,
or a malformed document (whose `json.load` raises an uncaught error). -/
inductive FileContent where
  | valid : PetState → FileContent
  | malformed : FileContent
deriving DecidableEq, Repr

/-- The state file: `none` when absent (`FileNotFoundError`). -/
abbrev Store := Option FileContent

/-- Embedding of `load_pet_state`: read the record; on an absent file return
the default state; a present but malformed file raises (uncaught). -/
def load_pet_state (store : Store) (now : String) : Except String PetState :=
  match store with
  | none => .ok (default_pet_state now)
  | some .malformed => .error "json.JSONDecodeError"
  | some (.valid s) => .ok s

/-- Embedding of `save_pet_state`: overwrite the file with the record. -/
def save_pet_state (state : PetState) (_store : Store) : Store :=
  some (.valid state)

/-- Embedding of `get_pet_ascii_art`: one of three glyphs keyed by the
average of the three scores (Python float division, modelled exactly by
`ℚ`). -/
def get_pet_ascii_art (health happiness energy : Int) : String :=
  let avg_stat : ℚ := ((health + happiness + energy : Int) : ℚ) / 3
  if avg_stat ≥ 80 then
    "    ◕   ◕\n      ω\n   \\_____/\n    |  |  |\n     😊"
  else if avg_stat ≥ 50 then
    "    ◔   ◔\n      ︶\n   \\_____/\n    |  |  |\n     😐"
  else
    "    ×   ×\n      ︵\n   \\_____/\n    |  |  |\n     😵"

/-- Embedding of `get_status_message`: a pipe-joined list of lines. -/
def get_status_message (health happiness energy : Int) : String :=
  let messages : List String := []
  let messages :=
    if health ≥ 80 then messages ++ ["Your Pokagotchi is responsive! 📧✨"]
    else if health ≥ 50 then messages ++ ["Your pet needs some email attention 📬"]
    else messages ++ ["Your Pokagotchi is drowning in emails! 😵"]
  let messages :=
    if happiness ≥ 80 then messages ++ ["Inbox organized, pet happy! 📥😊"]
    else messages
  let messages :=
    if energy < 50 then messages ++ ["Too many action emails, pet exhausted! 😴"]
    else messages
  String.intercalate " | " messages

/-- Embedding of the `check_pet_status` tool: load the state and format the
report.  Returns the tool's text (or the propagated error) together with the
resulting store; the tool performs no write, so the store is returned as
received. -/
def check_pet_status (store : Store) (now : String) :
    Except String String × Store :=
  match load_pet_state store now with
  | .error e => (.error e, store)
  | .ok state =>
    let ascii_art := get_pet_ascii_art state.health state.happiness state.energy
    let status_msg := get_status_message state.health state.happiness state.energy
    (.ok ("\n🐾 " ++ state.name ++ " Status 🐾\n\n" ++ ascii_art ++
      "\n\nHealth: " ++ toString state.health ++ "/100 ❤️\nHappiness: " ++
      toString state.happiness ++ "/100 😊\nEnergy: " ++
      toString state.energy ++ "/100 ⚡\n\n" ++ status_msg ++
      "\n\nLast updated: " ++ state.last_updated ++ "\n"), store)

/-- The status/emoji update performed inside `update_pet_from_email_data`
("Update status and emoji based on average"): the if/elif/else chain on
`avg_stat`, returning `(status, mood_emoji)`. -/
def classify_status (avg_stat : ℚ) : String × String :=
  if avg_stat ≥ 80 then ("thriving", "😊")
  else if avg_stat ≥ 50 then ("okay", "😐")
  else ("struggling", "😵")

/-- Embedding of the `update_pet_from_email_data` tool: compute the scores,
load the existing state, overwrite the six recomputed fields, classify the
mood from the average of the new scores, save, and return the confirmation
string.  A load failure propagates and leaves the store unchanged. -/
def update_pet_from_email_data (m : EmailMetrics) (store : Store)
    (now : String) : Except String String × Store :=
  let scores := calculate_pet_stats m
  let health := scores.1
  let happiness := scores.2.1
  let energy := scores.2.2
  match load_pet_state store now with
  | .error e => (.error e, store)
  | .ok state0 =>
    let avg_stat : ℚ := ((health + happiness + energy : Int) : ℚ) / 3
    let se := classify_status avg_stat
    let state : PetState :=
      { state0 with
        health := health
        happiness := happiness
        energy := energy
        last_updated := now
        status := se.1
        mood_emoji := se.2 }
    (.ok ("Pet updated! Health: " ++ toString health ++ ", Happiness: " ++
        toString happiness ++ ", Energy: " ++ toString energy),
      save_pet_state state store)

/-- The health tip line of `get_pet_advice`. -/
def health_tip : String :=
  "🏥 Health tip: Reply to those pending emails to boost your pet\x27s health!"

/-- The happiness tip line of `get_pet_advice`. -/
def happiness_tip : String :=
  "📥 Happiness tip: Try achieving inbox zero - your pet loves organization!"

/-- The energy tip line of `get_pet_advice`. -/
def energy_tip : String :=
  "⚡ Energy tip: Take breaks between email sessions to recharge your pet!"

/-- The congratulatory line of `get_pet_advice`. -/
def congrats_line : String :=
  "🎉 Great job! Your Pokagotchi is thriving! Keep up the good email habits!"

/-- Embedding of the `get_pet_advice` tool: load the state, collect the tip
lines whose condition holds, fall back to the congratulatory line when none
did, and join with newlines.  No write is performed. -/
def get_pet_advice (store : Store) (now : String) :
    Except String String × Store :=
  match load_pet_state store now with
  | .error e => (.error e, store)
  | .ok state =>
    let advice : List String := []
    let advice := if state.health < 70 then advice ++ [health_tip] else advice
    let advice :=
      if state.happiness < 70 then advice ++ [happiness_tip] else advice
    let advice := if state.energy < 70 then advice ++ [energy_tip] else advice
    let advice := if advice = [] then [congrats_line] else advice
    (.ok (String.intercalate "\n" advice), store)

/-- The three scores of a record all lie within [0, 100]. -/
def in_range (s : PetState) : Prop :=
  0 ≤ s.health ∧ s.health ≤ 100 ∧ 0 ≤ s.happiness ∧ s.happiness ≤ 100 ∧
  0 ≤ s.energy ∧ s.energy ≤ 100

/-- The real-valued (rational) arithmetic mean of a record's three scores,
as computed by the Python float division `(health + happiness + energy) / 3`. -/
def score_mean (s : PetState) : ℚ :=
  ((s.health + s.happiness + s.energy : Int) : ℚ) / 3

/-- The record's status and mood symbol agree with the mean of its three
scores per the thresholds: mean ≥ 80 iff thriving/😊, 50 ≤ mean < 80 iff
okay/😐, mean < 50 iff struggling/😵. -/
def mood_consistent (s : PetState) : Prop :=
  (80 ≤ score_mean s ↔ s.status = "thriving" ∧ s.mood_emoji = "😊") ∧
  (50 ≤ score_mean s ∧ score_mean s < 80 ↔
    s.status = "okay" ∧ s.mood_emoji = "😐") ∧
  (score_mean s < 50 ↔ s.status = "struggling" ∧ s.mood_emoji = "😵")

/-- An input whose `dormant_threads_7days` is negative: the line
`health -= dormant_threads * 15` then adds 45 health. -/
def negative_dormant_metrics : EmailMetrics :=
  { default_email_metrics with
    dormant_threads_7days := -3
    avg_response_time_hours := 1
    action_emails_percent := 0
    volume_today := 0 }

/-! ## Helper lemmas -/

theorem clamp_nonneg (x : Int) : 0 ≤ clamp x := le_max_left 0 _

theorem clamp_le_100 (x : Int) : clamp x ≤ 100 :=
  max_le (by norm_num) (min_le_left _ _)

theorem clamp_le_of_le {x b : Int} (hb : 0 ≤ b) (hx : x ≤ b) : clamp x ≤ b :=
  max_le hb ((min_le_right 100 x).trans hx)

theorem stats_bounds_aux (m : EmailMetrics) :
    0 ≤ (calculate_pet_stats m).1 ∧ (calculate_pet_stats m).1 ≤ 100 ∧
    0 ≤ (calculate_pet_stats m).2.1 ∧ (calculate_pet_stats m).2.1 ≤ 100 ∧
    0 ≤ (calculate_pet_stats m).2.2 ∧ (calculate_pet_stats m).2.2 ≤ 100 := by
  simp only [calculate_pet_stats]
  exact ⟨clamp_nonneg _, clamp_le_100 _, clamp_nonneg _, clamp_le_100 _,
    clamp_nonneg _, clamp_le_100 _⟩

theorem mood_consistent_of_classify {s : PetState}
    (h : (s.status, s.mood_emoji) = classify_status (score_mean s)) :
    mood_consistent s := by
  unfold classify_status at h
  by_cases h80 : score_mean s ≥ 80
  · rw [if_pos h80] at h
    have hs : s.status = "thriving" := congrArg Prod.fst h
    have he : s.mood_emoji = "😊" := congrArg Prod.snd h
    refine ⟨⟨fun _ => ⟨hs, he⟩, fun _ => h80⟩,
      ⟨fun hx => absurd h80 (not_le.mpr hx.2), fun hx => ?_⟩,
      ⟨fun hx => absurd h80 (not_le.mpr (hx.trans_le (by norm_num))),
        fun hx => ?_⟩⟩
    · rw [hs] at hx; exact absurd hx.1 (by decide)
    · rw [hs] at hx; exact absurd hx.1 (by decide)
  · rw [if_neg h80] at h
    push_neg at h80
    by_cases h50 : score_mean s ≥ 50
    · rw [if_pos h50] at h
      have hs : s.status = "okay" := congrArg Prod.fst h
      have he : s.mood_emoji = "😐" := congrArg Prod.snd h
      refine ⟨⟨fun hx => absurd h80 (not_lt.mpr hx), fun hx => ?_⟩,
        ⟨fun _ => ⟨hs, he⟩, fun _ => ⟨h50, h80⟩⟩,
        ⟨fun hx => absurd h50 (not_le.mpr hx), fun hx => ?_⟩⟩
      · rw [hs] at hx; exact absurd hx.1 (by decide)
      · rw [hs] at hx; exact absurd hx.1 (by decide)
    · rw [if_neg h50] at h
      push_neg at h50
      have hs : s.status = "struggling" := congrArg Prod.fst h
      have he : s.mood_emoji = "😵" := congrArg Prod.snd h
      refine ⟨⟨fun hx => absurd h50 (not_lt.mpr (by linarith)), fun hx => ?_⟩,
        ⟨fun hx => absurd h50 (not_lt.mpr hx.1), fun hx => ?_⟩,
        ⟨fun _ => ⟨hs, he⟩, fun _ => h50⟩⟩
      · rw [hs] at hx; exact absurd hx.1 (by decide)
      · rw [hs] at hx; exact absurd hx.1 (by decide)

theorem classify_status_below_80 {avg : ℚ} (h : avg < 80) :
    (classify_status avg).1 ≠ "thriving" ∧ (classify_status avg).2 ≠ "😊" := by
  unfold classify_status
  rw [if_neg (not_le.mpr h)]
  split_ifs <;> exact ⟨by decide, by decide⟩

theorem intercalate_singleton (sep x : String) :
    String.intercalate sep [x] = x := rfl

theorem update_written_state (m : EmailMetrics) (store : Store)
    (now : String) (s : PetState)
    (h : (update_pet_from_email_data m store now).2 = some (.valid s)) :
    (s.status, s.mood_emoji) = classify_status
      ((((calculate_pet_stats m).1 + (calculate_pet_stats m).2.1 +
        (calculate_pet_stats m).2.2 : Int) : ℚ) / 3) := by
  rcases store with _ | fc
  · simp only [update_pet_from_email_data, load_pet_state, save_pet_state,
      Option.some.injEq, FileContent.valid.injEq] at h
    rw [← h]
  · rcases fc with s₀ | _
    · simp only [update_pet_from_email_data, load_pet_state, save_pet_state,
        Option.some.injEq, FileContent.valid.injEq] at h
      rw [← h]
    · simp only [update_pet_from_email_data, load_pet_state] at h
      exact absurd h (by simp)

/-! ## Claim theorems -/

/-- C1: for every `EmailMetrics` input (any integer field values, any
rational `avg_response_time_hours`, any `is_busy_period`), each of the three
components health, happiness, energy returned by `calculate_pet_stats` lies
within [0, 100]. -/
theorem calculate_pet_stats_in_range (m : EmailMetrics) :
    0 ≤ (calculate_pet_stats m).1 ∧ (calculate_pet_stats m).1 ≤ 100 ∧
    0 ≤ (calculate_pet_stats m).2.1 ∧ (calculate_pet_stats m).2.1 ≤ 100 ∧
    0 ≤ (calculate_pet_stats m).2.2 ∧ (calculate_pet_stats m).2.2 ≤ 100 :=
  stats_bounds_aux m

/-- C2: every record the program produces — the default returned by
`load_pet_state` when no persisted record exists, and every record written
to the store by `update_pet_from_email_data` — has its three scores in
[0, 100] and its status/mood symbol consistent with the mean of the scores
per the thresholds. -/
theorem produced_states_invariant :
    (∀ now, in_range (default_pet_state now) ∧
      mood_consistent (default_pet_state now)) ∧
    (∀ m store now s,
      (update_pet_from_email_data m store now).2 = some (.valid s) →
      in_range s ∧ mood_consistent s) := by
  constructor
  · intro now
    refine ⟨by norm_num [in_range, default_pet_state], ?_⟩
    refine mood_consistent_of_classify ?_
    norm_num [default_pet_state, score_mean, classify_status]
  · intro m store now s h
    have key : ∀ s₀ : PetState,
        s = { s₀ with
              health := (calculate_pet_stats m).1
              happiness := (calculate_pet_stats m).2.1
              energy := (calculate_pet_stats m).2.2
              last_updated := now
              status := (classify_status
                ((((calculate_pet_stats m).1 + (calculate_pet_stats m).2.1 +
                  (calculate_pet_stats m).2.2 : Int) : ℚ) / 3)).1
              mood_emoji := (classify_status
                ((((calculate_pet_stats m).1 + (calculate_pet_stats m).2.1 +
                  (calculate_pet_stats m).2.2 : Int) : ℚ) / 3)).2 } →
        in_range s ∧ mood_consistent s := by
      intro s₀ hs
      subst hs
      obtain ⟨b1, b2, b3, b4, b5, b6⟩ := stats_bounds_aux m
      refine ⟨⟨b1, b2, b3, b4, b5, b6⟩, mood_consistent_of_classify ?_⟩
      exact Prod.mk.eta
    rcases store with _ | fc
    · simp only [update_pet_from_email_data, load_pet_state, save_pet_state,
        Option.some.injEq, FileContent.valid.injEq] at h
      exact key (default_pet_state now) h.symm
    · rcases fc with s₀ | _
      · simp only [update_pet_from_email_data, load_pet_state,
          save_pet_state, Option.some.injEq, FileContent.valid.injEq] at h
        exact key s₀ h.symm
      · simp only [update_pet_from_email_data, load_pet_state] at h
        exact absurd h (by simp)

/-- Witness for C2: the update tool run on the all-defaults input over an
absent store writes the record (65, 75, 50, "okay", 😐), which satisfies the
invariant. -/
theorem produced_states_invariant_witness :
    (update_pet_from_email_data default_email_metrics none "t").2 =
      some (.valid ⟨"Pokagotchi", 65, 75, 50, "t", "okay", "😐"⟩) ∧
    in_range ⟨"Pokagotchi", 65, 75, 50, "t", "okay", "😐"⟩ ∧
    mood_consistent ⟨"Pokagotchi", 65, 75, 50, "t", "okay", "😐"⟩ :=
  ⟨by norm_num [update_pet_from_email_data, load_pet_state, save_pet_state,
      default_pet_state, calculate_pet_stats, default_email_metrics, clamp,
      classify_status],
    produced_states_invariant.2 default_email_metrics none "t" _
      (by norm_num [update_pet_from_email_data, load_pet_state,
        save_pet_state, default_pet_state, calculate_pet_stats,
        default_email_metrics, clamp, classify_status])⟩

/-- C3: on the all-defaults input of the update tool, `calculate_pet_stats`
returns exactly health 65, happiness 75, energy 50. -/
theorem calculate_pet_stats_defaults :
    calculate_pet_stats default_email_metrics = (65, 75, 50) := by decide

/-- C4: the classification step applied to the real-valued mean of the three
post-clamp scores follows the thresholds — mean ≥ 80 gives thriving,
50 ≤ mean < 80 gives okay, mean < 50 gives struggling — with the boundary
values 80 → thriving, 79.999 → okay, 50 → okay, 49.999 → struggling; and
the update tool derives status and mood symbol by exactly this map applied
to the non-re-clamped mean of the scores of `calculate_pet_stats`. -/
theorem classify_status_thresholds :
    (∀ avg : ℚ, 80 ≤ avg → classify_status avg = ("thriving", "😊")) ∧
    (∀ avg : ℚ, 50 ≤ avg → avg < 80 → classify_status avg = ("okay", "😐")) ∧
    (∀ avg : ℚ, avg < 50 → classify_status avg = ("struggling", "😵")) ∧
    classify_status 80 = ("thriving", "😊") ∧
    classify_status ((79999 : ℚ) / 1000) = ("okay", "😐") ∧
    classify_status 50 = ("okay", "😐") ∧
    classify_status ((49999 : ℚ) / 1000) = ("struggling", "😵") ∧
    (∀ m s₀ now s,
      (update_pet_from_email_data m (some (.valid s₀)) now).2 =
        some (.valid s) →
      (s.status, s.mood_emoji) = classify_status
        ((((calculate_pet_stats m).1 + (calculate_pet_stats m).2.1 +
          (calculate_pet_stats m).2.2 : Int) : ℚ) / 3)) := by
  refine ⟨fun avg h => ?_, fun avg h1 h2 => ?_, fun avg h => ?_,
    by norm_num [classify_status], by norm_num [classify_status],
    by norm_num [classify_status], by norm_num [classify_status],
    fun m s₀ now s h => ?_⟩
  · unfold classify_status
    rw [if_pos h]
  · unfold classify_status
    rw [if_neg (not_le.mpr h2), if_pos h1]
  · unfold classify_status
    rw [if_neg (not_le.mpr (h.trans_le (by norm_num))),
      if_neg (not_le.mpr h)]
  · simp only [update_pet_from_email_data, load_pet_state, save_pet_state,
      Option.some.injEq, FileContent.valid.injEq] at h
    rw [← h]

/-- Witness for C4: the mean 75 lies in [50, 80) and is classified okay/😐. -/
theorem classify_status_thresholds_witness :
    (50 : ℚ) ≤ 75 ∧ (75 : ℚ) < 80 ∧ classify_status 75 = ("okay", "😐") :=
  ⟨by norm_num, by norm_num,
    classify_status_thresholds.2.1 75 (by norm_num) (by norm_num)⟩

/-- C5 counterexample: on the input `negative_dormant_metrics` (all fields
integral, `dormant_threads_7days = -3`), the line
`health -= dormant_threads * 15` adds 45 health, so health is 100 > 70 and
the update tool writes a record with status "thriving" and the positive mood
symbol — refuting the claim that health ≤ 70 for every input and that the
update tool can never write "thriving". -/
theorem update_writes_thriving_example :
    ¬ ((calculate_pet_stats negative_dormant_metrics).1 ≤ 70) ∧
    (update_pet_from_email_data negative_dormant_metrics none "t").2 =
      some (.valid ⟨"Pokagotchi", 100, 75, 75, "t", "thriving", "😊"⟩) := by
  constructor
  · decide
  · norm_num [update_pet_from_email_data, load_pet_state, save_pet_state,
      default_pet_state, calculate_pet_stats, negative_dormant_metrics,
      default_email_metrics, clamp, classify_status]

/-- C5 amended: for every `EmailMetrics` input whose `dormant_threads_7days`
is nonnegative, the scores satisfy health ≤ 70, happiness ≤ 75 and
energy ≤ 75, so the mean of the three scores is below 80 and the update
tool never writes status "thriving" or the positive mood symbol. -/
theorem no_thriving_when_dormant_nonneg (m : EmailMetrics)
    (hd : 0 ≤ m.dormant_threads_7days) :
    (calculate_pet_stats m).1 ≤ 70 ∧
    (calculate_pet_stats m).2.1 ≤ 75 ∧
    (calculate_pet_stats m).2.2 ≤ 75 ∧
    (∀ store now s,
      (update_pet_from_email_data m store now).2 = some (.valid s) →
      s.status ≠ "thriving" ∧ s.mood_emoji ≠ "😊") := by
  have h1 : (calculate_pet_stats m).1 ≤ 70 := by
    simp only [calculate_pet_stats]
    refine clamp_le_of_le (by norm_num) ?_
    split_ifs <;> omega
  have h2 : (calculate_pet_stats m).2.1 ≤ 75 := by
    simp only [calculate_pet_stats]
    refine clamp_le_of_le (by norm_num) ?_
    split_ifs <;> omega
  have h3 : (calculate_pet_stats m).2.2 ≤ 75 := by
    simp only [calculate_pet_stats]
    refine clamp_le_of_le (by norm_num) ?_
    split_ifs <;> omega
  have havg : (((calculate_pet_stats m).1 + (calculate_pet_stats m).2.1 +
      (calculate_pet_stats m).2.2 : Int) : ℚ) / 3 < 80 := by
    have hsum : ((calculate_pet_stats m).1 + (calculate_pet_stats m).2.1 +
        (calculate_pet_stats m).2.2 : Int) ≤ 220 := by omega
    have hq : (((calculate_pet_stats m).1 + (calculate_pet_stats m).2.1 +
        (calculate_pet_stats m).2.2 : Int) : ℚ) ≤ 220 := by
      exact_mod_cast hsum
    linarith
  refine ⟨h1, h2, h3, fun store now s h => ?_⟩
  have hcm := update_written_state m store now s h
  have hne := classify_status_below_80 havg
  have hst : s.status = (classify_status
      ((((calculate_pet_stats m).1 + (calculate_pet_stats m).2.1 +
        (calculate_pet_stats m).2.2 : Int) : ℚ) / 3)).1 :=
    congrArg Prod.fst hcm
  have hem : s.mood_emoji = (classify_status
      ((((calculate_pet_stats m).1 + (calculate_pet_stats m).2.1 +
        (calculate_pet_stats m).2.2 : Int) : ℚ) / 3)).2 :=
    congrArg Prod.snd hcm
  rw [hst, hem]
  exact hne

/-- Witness for C5 amended: the all-defaults input has nonnegative dormant
threads and its health score 65 is at most 70. -/
theorem no_thriving_when_dormant_nonneg_witness :
    0 ≤ default_email_metrics.dormant_threads_7days ∧
    (calculate_pet_stats default_email_metrics).1 ≤ 70 :=
  ⟨by decide,
    (no_thriving_when_dormant_nonneg default_email_metrics (by decide)).1⟩

/-- C6: `load_pet_state` returns the default record exactly in the absent
case and does not write it (the status tool leaves any store unchanged); a
present malformed record propagates an error out of both `load_pet_state`
and the status tool; a present valid record is returned as stored. -/
theorem load_pet_state_absence_spec :
    (∀ now, load_pet_state none now = .ok (default_pet_state now)) ∧
    (∀ store now, (check_pet_status store now).2 = store) ∧
    (∀ now, load_pet_state (some .malformed) now =
      .error "json.JSONDecodeError") ∧
    (∀ now, (check_pet_status (some .malformed) now).1 =
      .error "json.JSONDecodeError") ∧
    (∀ s now, load_pet_state (some (.valid s)) now = .ok s) := by
  refine ⟨fun _ => rfl, fun store now => ?_, fun _ => rfl, fun _ => rfl,
    fun _ _ => rfl⟩
  rcases store with _ | fc
  · rfl
  · rcases fc with s | _ <;> rfl

set_option maxRecDepth 8192 in
/-- C7 counterexample: with the store absent, the status tool builds the
default record with the current timestamp and prints it, so two calls
observing different times produce different output — refuting idempotence
for every starting store state. -/
theorem check_pet_status_absent_differs :
    (check_pet_status none "2024-01-01T00:00:00").1 ≠
    (check_pet_status none "2024-01-01T00:00:01").1 := by
  norm_num [check_pet_status, load_pet_state, default_pet_state,
    get_pet_ascii_art, get_status_message]
  decide

/-- C7 amended: calling the status tool twice with no intervening update
produces identical output, with an unchanged last_updated timestamp,
whenever the persisted record is present (valid or malformed); when absent,
the output embeds the timestamp each call observes. -/
theorem check_pet_status_idempotent_present (fc : FileContent)
    (now1 now2 : String) :
    check_pet_status (some fc) now1 = check_pet_status (some fc) now2 := by
  cases fc <;> rfl

/-- C8: saving any record and then loading yields that record back, equal in
all fields. -/
theorem save_load_round_trip (state : PetState) (store : Store)
    (now : String) :
    load_pet_state (save_pet_state state store) now = .ok state := rfl

/-- C9: on any metrics input and any pre-existing valid record, the update
tool succeeds, writes back a record that keeps the old name and differs only
in health, happiness, energy, status, mood_emoji and last_updated — the
scores being those of `calculate_pet_stats`, the status/mood those of the
classification of their mean, the timestamp the current time — and returns a
confirmation string containing the three new scores. -/
theorem update_overwrites_exactly (m : EmailMetrics) (s₀ : PetState)
    (now : String) :
    ∃ s msg,
      update_pet_from_email_data m (some (.valid s₀)) now =
        (.ok msg, some (.valid s)) ∧
      s.name = s₀.name ∧
      s.health = (calculate_pet_stats m).1 ∧
      s.happiness = (calculate_pet_stats m).2.1 ∧
      s.energy = (calculate_pet_stats m).2.2 ∧
      s.last_updated = now ∧
      (s.status, s.mood_emoji) = classify_status
        ((((calculate_pet_stats m).1 + (calculate_pet_stats m).2.1 +
          (calculate_pet_stats m).2.2 : Int) : ℚ) / 3) ∧
      (∃ a b, msg = a ++ toString (calculate_pet_stats m).1 ++ b) ∧
      (∃ a b, msg = a ++ toString (calculate_pet_stats m).2.1 ++ b) ∧
      (∃ a b, msg = a ++ toString (calculate_pet_stats m).2.2 ++ b) := by
  refine ⟨_, _, rfl, rfl, rfl, rfl, rfl, rfl, Prod.mk.eta, ?_, ?_, ?_⟩
  · exact ⟨"Pet updated! Health: ",
      ", Happiness: " ++ toString (calculate_pet_stats m).2.1 ++
        ", Energy: " ++ toString (calculate_pet_stats m).2.2,
      by simp [String.append_assoc]⟩
  · exact ⟨"Pet updated! Health: " ++ toString (calculate_pet_stats m).1 ++
        ", Happiness: ",
      ", Energy: " ++ toString (calculate_pet_stats m).2.2,
      by simp [String.append_assoc]⟩
  · exact ⟨"Pet updated! Health: " ++ toString (calculate_pet_stats m).1 ++
        ", Happiness: " ++ toString (calculate_pet_stats m).2.1 ++
        ", Energy: ", "",
      by simp [String.append_assoc, String.append_empty]⟩

set_option maxRecDepth 8192 in
/-- C10: the advice tool evaluates its three conditions independently —
health < 70 adds the reply-to-emails tip, happiness < 70 adds the inbox-zero
tip, energy < 70 adds the take-breaks tip — joins the triggered tips with
newlines in that fixed order, and emits the single congratulatory line if
and only if none triggered; in particular on the record (60, 60, 60) the
output is exactly the three tips in order health, happiness, energy, and the
congratulatory line is not among them. -/
theorem get_pet_advice_checklist :
    (∀ (s : PetState) (now : String),
      (get_pet_advice (some (.valid s)) now).1 =
        .ok (if 70 ≤ s.health ∧ 70 ≤ s.happiness ∧ 70 ≤ s.energy then
            congrats_line
          else String.intercalate "\n"
            ((if s.health < 70 then [health_tip] else []) ++
             (if s.happiness < 70 then [happiness_tip] else []) ++
             (if s.energy < 70 then [energy_tip] else [])))) ∧
    (get_pet_advice
        (some (.valid ⟨"Pokagotchi", 60, 60, 60, "t", "okay", "😐"⟩))
        "u").1 =
      .ok (health_tip ++ "\n" ++ happiness_tip ++ "\n" ++ energy_tip) ∧
    health_tip ++ "\n" ++ happiness_tip ++ "\n" ++ energy_tip ≠
      congrats_line := by
  refine ⟨fun s now => ?_, by decide, by decide⟩
  simp only [get_pet_advice, load_pet_state]
  split_ifs <;> first | rfl | omega | simp_all [intercalate_singleton]

end Pokagotchi
